import Mathlib

/-!
Verification of the ZetaClientWrapper order-construction and
transaction-submission pipeline (src/zeta-api.js), shallowly embedded in
Lean 4.  JavaScript numbers are modelled as rationals; the fallible
order-book access (indexing a possibly empty array) is modelled with
Option; the asynchronous retry loop is modelled as a pure recursion over
the remaining attempt count, with the environment (blockhash fetches and
submission outcomes per attempt) passed explicitly.
-/

set_option linter.unusedVariables false

namespace ZetaApi

/-- `types.Side` of the exchange SDK: the two order sides used by the code. -/
inductive Side where
  | BID
  | ASK
deriving DecidableEq, Repr

/-- The opposite of a side (used only to state that protective legs sit on
the side opposite the main order). -/
def Side.opposite : Side → Side
  | .BID => .ASK
  | .ASK => .BID

/-- `types.TriggerDirection` of the exchange SDK, as used by the code. -/
inductive TriggerDirection where
  | GREATERTHANOREQUAL
  | LESSTHANOREQUAL
deriving DecidableEq, Repr

/-- `types.OrderType` of the exchange SDK; the code only ever uses LIMIT. -/
inductive OrderType where
  | LIMIT
deriving DecidableEq, Repr

/-- The settings record returned by `fetchSettings` (zeta-api.js lines
254-270) and consumed by the calculators. -/
structure RiskSettings where
  leverageMultiplier : ℚ
  takeProfitPercentage : ℚ
  stopLossPercentage : ℚ
deriving DecidableEq, Repr

/-- The raw `trading_settings` hash read from the key-value store, with
each field already passed through the JavaScript builtin `parseFloat`
(external to the repository): `none` stands for a missing field or an
unparsable one (`parseFloat` returned NaN), `some v` for a field that
parsed to the number `v`. -/
structure TradingSettings where
  leverageMultiplier : Option ℚ
  takeProfitPercentage : Option ℚ
  stopLossPercentage : Option ℚ
deriving DecidableEq, Repr

/-- JavaScript `parseFloat(x) || d`: NaN (here `none`) and 0 are falsy,
so both fall back to the default `d`; any other parsed number is kept. -/
def jsParseFloatOr (v : Option ℚ) (d : ℚ) : ℚ :=
  match v with
  | none => d
  | some x => if x = 0 then d else x

/-- `fetchSettings` (zeta-api.js lines 254-270).  The store read is passed
in as an `Except`: `.error` models the `hgetall` call throwing (store
unreachable), `.ok` a successful read of the hash.  The function itself
is total: it never propagates a failure.  Defaults: 8, 0.0018 = 9/5000,
0.022 = 11/500. -/
def fetchSettings (store : Except Unit TradingSettings) : RiskSettings :=
  match store with
  | .error _ => ⟨8, 9/5000, 11/500⟩
  | .ok h =>
      ⟨jsParseFloatOr h.leverageMultiplier 8,
       jsParseFloatOr h.takeProfitPercentage (9/5000),
       jsParseFloatOr h.stopLossPercentage (11/500)⟩

/-- The four prices returned by `calculateTPSLPrices`. -/
structure TPSLPrices where
  takeProfitPrice : ℚ
  takeProfitTrigger : ℚ
  stopLossPrice : ℚ
  stopLossTrigger : ℚ
deriving DecidableEq, Repr

/-- `calculateTPSLPrices` (zeta-api.js lines 283-309), literally: the
long branch is taken exactly when `direction === "long"`, every other
string falls to the short branch; 0.9 is 9/10. -/
def calculateTPSLPrices (direction : String) (price : ℚ)
    (settings : RiskSettings) : TPSLPrices :=
  let takeProfitPercentage := settings.takeProfitPercentage
  let stopLossPercentage := settings.stopLossPercentage
  let isLong := direction = "long"
  let takeProfitPrice :=
    if isLong then price + price * takeProfitPercentage
    else price - price * takeProfitPercentage
  let takeProfitTrigger :=
    if isLong then price + (takeProfitPrice - price) / 2
    else price - (price - takeProfitPrice) / 2
  let stopLossPrice :=
    if isLong then price - price * stopLossPercentage
    else price + price * stopLossPercentage
  let stopLossTrigger :=
    if isLong then price - (price - stopLossPrice) * (9/10)
    else price + (stopLossPrice - price) * (9/10)
  ⟨takeProfitPrice, takeProfitTrigger, stopLossPrice, stopLossTrigger⟩

/-- JavaScript `x.toFixed(1)` read back as a number: the nearest multiple
of 1/10, the larger one on ties (the ECMAScript definition of toFixed). -/
def toFixed1 (x : ℚ) : ℚ := (⌊x * 10 + 1/2⌋ : ℚ) / 10

/-- Modelled from the spec: `utils.convertDecimalToNativeInteger` of the
exchange SDK is not part of this repository; per the glossary it scales a
decimal price to the exchange-native integer representation. -/
def convertDecimalToNativeInteger (x : ℚ) : ℤ := ⌊x * 1000000⌋

/-- Modelled from the spec: `utils.convertDecimalToNativeLotSize` of the
exchange SDK is not part of this repository; per the glossary it scales a
decimal size to the exchange-native integer lot representation. -/
def convertDecimalToNativeLotSize (x : ℚ) : ℤ := ⌊x * 1000⌋

/-- The order book snapshot `Exchange.getOrderbook` returns after the
forced fetch: price levels, best first. -/
structure Orderbook where
  asks : List ℚ
  bids : List ℚ
deriving DecidableEq, Repr

/-- The record returned by `calculatePricesAndSize`; `positionSizeFixed`
is the value of `positionSize.toFixed(1)` that the code feeds to the
native lot conversion. -/
structure PricesAndSize where
  currentPrice : ℚ
  adjustedPrice : ℚ
  positionSize : ℚ
  positionSizeFixed : ℚ
  nativeLotSize : ℤ
deriving DecidableEq, Repr

/-- `calculatePricesAndSize` (zeta-api.js lines 311-330).  The order book
is passed in as the snapshot the forced fetch produced; reading the best
level of an empty side (JavaScript `orderbook.asks[0].price` throwing) is
`none`.  Slippage is the literal 0.00005 = 5/100000. -/
def calculatePricesAndSize (side : Side) (marketIndex : ℕ) (balance : ℚ)
    (settings : RiskSettings) (orderbook : Orderbook) :
    Option PricesAndSize :=
  match (if side = Side.BID then orderbook.asks else orderbook.bids).head? with
  | none => none
  | some currentPrice =>
      let slippage : ℚ := 5/100000
      let adjustedPrice :=
        if side = Side.BID then currentPrice * (1 + slippage)
        else currentPrice * (1 - slippage)
      let positionSize := balance * settings.leverageMultiplier / currentPrice
      let positionSizeFixed := toFixed1 positionSize
      some ⟨currentPrice, adjustedPrice, positionSize, positionSizeFixed,
            convertDecimalToNativeLotSize positionSizeFixed⟩

/-- An order instruction, as the call to the SDK instruction constructor
with its arguments: `placePerpOrder` is `createPlacePerpOrderInstruction`,
`placeTriggerOrder` is `createPlaceTriggerOrderIx`. -/
inductive Instruction where
  | placePerpOrder (marketIndex : ℕ) (price : ℤ) (size : ℤ) (side : Side)
      (orderType : OrderType) (reduceOnly : Bool)
  | placeTriggerOrder (marketIndex : ℕ) (price : ℤ) (size : ℤ) (side : Side)
      (triggerPrice : ℤ) (triggerDirection : TriggerDirection)
      (triggerTimestamp : ℤ) (orderType : OrderType)
      (triggerOrderBit : ℕ) (reduceOnly : Bool)
deriving DecidableEq, Repr

/-- The side an instruction is placed on. -/
def Instruction.sideOf : Instruction → Side
  | .placePerpOrder _ _ _ s _ _ => s
  | .placeTriggerOrder _ _ _ s _ _ _ _ _ _ => s

/-- The trigger order slot of an instruction; `none` for a plain order. -/
def Instruction.triggerBit : Instruction → Option ℕ
  | .placePerpOrder _ _ _ _ _ _ => none
  | .placeTriggerOrder _ _ _ _ _ _ _ _ bit _ => some bit

/-- Whether the instruction is a trigger order. -/
def Instruction.isTriggerOrder : Instruction → Bool
  | .placePerpOrder _ _ _ _ _ _ => false
  | .placeTriggerOrder _ _ _ _ _ _ _ _ _ _ => true

/-- The reduce-only flag of an instruction. -/
def Instruction.reduceOnlyFlag : Instruction → Bool
  | .placePerpOrder _ _ _ _ _ r => r
  | .placeTriggerOrder _ _ _ _ _ _ _ _ _ r => r

/-- `createMainOrderInstruction` (zeta-api.js lines 332-343): a plain
limit order at the adjusted price, on the trade side, not reduce-only. -/
def createMainOrderInstruction (marketIndex : ℕ) (adjustedPrice : ℚ)
    (nativeLotSize : ℤ) (side : Side) : Instruction :=
  .placePerpOrder marketIndex (convertDecimalToNativeInteger adjustedPrice)
    nativeLotSize side .LIMIT false

/-- `createTPLimitOrderInstruction` (zeta-api.js lines 345-361): the
take-profit leg.  As in the source, `takeProfitTrigger` and the local
`triggerDirection` are computed but never used: the instruction built is
a plain reduce-only limit order at the take-profit price. -/
def createTPLimitOrderInstruction (direction : String) (marketIndex : ℕ)
    (takeProfitPrice takeProfitTrigger : ℚ) (nativeLotSize : ℤ) :
    Instruction :=
  let tp_side := if direction = "long" then Side.ASK else Side.BID
  let triggerDirection :=
    if direction = "long" then TriggerDirection.GREATERTHANOREQUAL
    else TriggerDirection.LESSTHANOREQUAL
  .placePerpOrder marketIndex (convertDecimalToNativeInteger takeProfitPrice)
    nativeLotSize tp_side .LIMIT true

/-- `createTPOrderInstruction` (zeta-api.js lines 363-382): a reduce-only
take-profit trigger order; the trigger order slot is the explicit
argument (the JavaScript default is 0, see
`createTPOrderInstructionDefault`). -/
def createTPOrderInstruction (direction : String) (marketIndex : ℕ)
    (takeProfitPrice takeProfitTrigger : ℚ) (nativeLotSize : ℤ)
    (triggerOrderBit : ℕ) : Instruction :=
  let tp_side := if direction = "long" then Side.ASK else Side.BID
  let triggerDirection :=
    if direction = "long" then TriggerDirection.GREATERTHANOREQUAL
    else TriggerDirection.LESSTHANOREQUAL
  .placeTriggerOrder marketIndex
    (convertDecimalToNativeInteger takeProfitPrice) nativeLotSize tp_side
    (convertDecimalToNativeInteger takeProfitTrigger) triggerDirection
    0 .LIMIT triggerOrderBit true

/-- `createTPOrderInstruction` called without a slot argument: the
JavaScript default parameter `triggerOrderBit = 0` applies. -/
def createTPOrderInstructionDefault (direction : String) (marketIndex : ℕ)
    (takeProfitPrice takeProfitTrigger : ℚ) (nativeLotSize : ℤ) :
    Instruction :=
  createTPOrderInstruction direction marketIndex takeProfitPrice
    takeProfitTrigger nativeLotSize 0

/-- `createSLOrderInstruction` (zeta-api.js lines 384-403): a reduce-only
stop-loss trigger order; the trigger order slot is the explicit argument
(the JavaScript default is 1, see `createSLOrderInstructionDefault`). -/
def createSLOrderInstruction (direction : String) (marketIndex : ℕ)
    (stopLossPrice stopLossTrigger : ℚ) (nativeLotSize : ℤ)
    (triggerOrderBit : ℕ) : Instruction :=
  let sl_side := if direction = "long" then Side.ASK else Side.BID
  let triggerDirection :=
    if direction = "long" then TriggerDirection.LESSTHANOREQUAL
    else TriggerDirection.GREATERTHANOREQUAL
  .placeTriggerOrder marketIndex
    (convertDecimalToNativeInteger stopLossPrice) nativeLotSize sl_side
    (convertDecimalToNativeInteger stopLossTrigger) triggerDirection
    0 .LIMIT triggerOrderBit true

/-- `createSLOrderInstruction` called without a slot argument: the
JavaScript default parameter `triggerOrderBit = 1` applies. -/
def createSLOrderInstructionDefault (direction : String) (marketIndex : ℕ)
    (stopLossPrice stopLossTrigger : ℚ) (nativeLotSize : ℤ) : Instruction :=
  createSLOrderInstruction direction marketIndex stopLossPrice
    stopLossTrigger nativeLotSize 1

/-- The pure order-construction portion of `openPositionWithTPSLVersioned`
(zeta-api.js lines 114-132): side selection, price and size computation,
TP/SL computation, and the three instructions in order main, take-profit,
stop-loss.  Settings, balance and the fetched order book are passed in;
note the stop-loss builder is called with the explicit slot argument 0
(line 127). -/
def openPositionWithTPSLVersioned (direction : String) (marketIndex : ℕ)
    (balance : ℚ) (settings : RiskSettings) (orderbook : Orderbook) :
    Option (List Instruction) :=
  let side := if direction = "long" then Side.BID else Side.ASK
  match calculatePricesAndSize side marketIndex balance settings orderbook with
  | none => none
  | some r =>
      let t := calculateTPSLPrices direction r.adjustedPrice settings
      let mainOrderIx :=
        createMainOrderInstruction marketIndex r.adjustedPrice
          r.nativeLotSize side
      let tpOrderIx :=
        createTPLimitOrderInstruction direction marketIndex
          t.takeProfitPrice t.takeProfitTrigger r.nativeLotSize
      let slOrderIx :=
        createSLOrderInstruction direction marketIndex
          t.stopLossPrice t.stopLossTrigger r.nativeLotSize 0
      some [mainOrderIx, tpOrderIx, slOrderIx]

/-- The environment of one `processTransactionWithRetry` run: what
blockhash the connection hands out during attempt `i`, and how the
network answers a submission made at attempt `i` with stamped blockhash
`b` (`.ok` a transaction id, `.error` a rejection). -/
structure TxEnv (E B T : Type) where
  fetchBlockhash : ℕ → B
  submit : ℕ → B → Except E T

/-- The observable outcome of a retry run: the returned value (`none`
models the JavaScript `undefined` fall-through when the loop body never
runs), the blockhash stamped on the transaction at each submission in
attempt order, and the total time slept in `setTimeout` waits. -/
structure RetryResult (E B T : Type) where
  result : Option (Except E T)
  submissions : List B
  totalDelay : ℕ
deriving Repr

/-- The `for (let attempt = 1; attempt <= maxRetries; attempt++)` loop of
`processTransactionWithRetry` (zeta-api.js lines 62-99), as a recursion
on the number of remaining attempts: each iteration fetches a fresh
blockhash, stamps it on the transaction, submits; on success it returns
at once, on failure of the last attempt it rethrows, otherwise it sleeps
`retryDelay` and continues. -/
def retryLoop {E B T : Type} (env : TxEnv E B T) (retryDelay : ℕ) :
    ℕ → ℕ → RetryResult E B T
  | _, 0 => ⟨none, [], 0⟩
  | attempt, remaining + 1 =>
      let blockhash := env.fetchBlockhash attempt
      match env.submit attempt blockhash with
      | .ok txid => ⟨some (.ok txid), [blockhash], 0⟩
      | .error e =>
          if remaining = 0 then ⟨some (.error e), [blockhash], 0⟩
          else
            let rest := retryLoop env retryDelay (attempt + 1) remaining
            ⟨rest.result, blockhash :: rest.submissions,
             retryDelay + rest.totalDelay⟩

/-- `processTransactionWithRetry` (zeta-api.js lines 61-100): the loop
starting at attempt 1. -/
def processTransactionWithRetry {E B T : Type} (env : TxEnv E B T)
    (maxRetries retryDelay : ℕ) : RetryResult E B T :=
  retryLoop env retryDelay 1 maxRetries

/-- `processTransactionWithRetry` called as at zeta-api.js line 134, with
the JavaScript default parameters maxRetries = 3, retryDelay = 100. -/
def processTransactionWithRetryDefault {E B T : Type} (env : TxEnv E B T) :
    RetryResult E B T :=
  processTransactionWithRetry env 3 100

/-- Truncation to one decimal place, following the words of the spec
sentence "truncated to one decimal place", for comparison with what the
code (JavaScript `toFixed(1)`, which rounds) actually computes. -/
def specTruncate1 (x : ℚ) : ℚ := (⌊x * 10⌋ : ℚ) / 10

/-! Helper lemmas. -/

/-- The two order sides are distinct constructors. -/
theorem side_ask_ne_bid : Side.ASK ≠ Side.BID := fun h => Side.noConfusion h

/-- When every submission fails, the loop starting at attempt `a` with
`r + 1` attempts left performs all of them, sleeps between consecutive
attempts only, and ends in the error of the final attempt. -/
theorem retryLoop_persistent_failure {E B T : Type} (env : TxEnv E B T) (d : ℕ) (f : ℕ → E)
    (hf : ∀ i b, env.submit i b = Except.error (f i)) :
    ∀ r a, retryLoop env d a (r + 1) =
      ⟨some (Except.error (f (a + r))), (List.range' a (r + 1)).map env.fetchBlockhash, r * d⟩ := by
  intro r
  induction r with
  | zero => intro a; simp [retryLoop, hf]
  | succ rr ih =>
      intro a
      rw [retryLoop, hf]
      simp only [Nat.succ_ne_zero, if_false, ih (a + 1), RetryResult.mk.injEq]
      refine ⟨?_, ?_, ?_⟩
      · rw [show a + 1 + rr = a + (rr + 1) from by omega]
      · simp [List.range'_succ]
      · ring

/-- When the first `j` attempts after `a` fail and attempt `a + j`
succeeds, the loop returns that success at once: `j + 1` submissions in
total and `j` sleeps, none after the successful attempt. -/
theorem retryLoop_success {E B T : Type} (env : TxEnv E B T) (d : ℕ) (g : ℕ → E) (t : T) :
    ∀ j a r, j < r →
      (∀ i b, i < a + j → env.submit i b = Except.error (g i)) →
      (∀ b, env.submit (a + j) b = Except.ok t) →
      retryLoop env d a r =
        ⟨some (Except.ok t), (List.range' a (j + 1)).map env.fetchBlockhash, j * d⟩ := by
  intro j
  induction j with
  | zero =>
      intro a r hjr hfail hok
      obtain ⟨rr, rfl⟩ : ∃ rr, r = rr + 1 := ⟨r - 1, by omega⟩
      have h := hok (env.fetchBlockhash a)
      rw [Nat.add_zero] at h
      rw [retryLoop, h]
      simp [List.range'_succ]
  | succ jj ih =>
      intro a r hjr hfail hok
      obtain ⟨rr, rfl⟩ : ∃ rr, r = rr + 1 := ⟨r - 1, by omega⟩
      have hsub : env.submit a (env.fetchBlockhash a) = Except.error (g a) :=
        hfail a _ (by omega)
      have hok2 : ∀ b, env.submit (a + 1 + jj) b = Except.ok t := by
        intro b
        rw [show a + 1 + jj = a + (jj + 1) from by omega]
        exact hok b
      have hfail2 : ∀ i b, i < a + 1 + jj → env.submit i b = Except.error (g i) := by
        intro i b hi
        exact hfail i b (by omega)
      have hrest := ih (a + 1) rr (by omega) hfail2 hok2
      rw [retryLoop, hsub]
      simp only [show rr ≠ 0 from by omega, if_false, hrest, RetryResult.mk.injEq]
      refine ⟨trivial, ?_, ?_⟩
      · simp [List.range'_succ]
      · ring

/-- Whatever the submission outcomes, the blockhash stamped at the i-th
submission of the loop is exactly the one fetched during that attempt. -/
theorem retryLoop_submissions {E B T : Type} (env : TxEnv E B T) (d : ℕ) :
    ∀ r a, (retryLoop env d a r).submissions =
      (List.range' a (retryLoop env d a r).submissions.length).map env.fetchBlockhash := by
  intro r
  induction r with
  | zero => intro a; simp [retryLoop]
  | succ rr ih =>
      intro a
      rw [retryLoop]
      cases h : env.submit a (env.fetchBlockhash a) with
      | ok t => simp [List.range'_succ]
      | error e =>
          by_cases hr : rr = 0
          · simp [hr, List.range'_succ]
          · simp only [hr, if_false]
            simp only [List.length_cons, List.range'_succ, List.map_cons, List.cons.injEq]
            exact ⟨trivial, ih (a + 1)⟩

/-- Shape of the instruction bundle the pipeline emits: main order, then
a plain reduce-only limit order, then a reduce-only trigger order in
trigger slot 0, with the main order on the trade side and both
protective legs on the opposite side. -/
theorem openPosition_instruction_shape (direction : String) (marketIndex : ℕ) (balance : ℚ)
    (settings : RiskSettings) (orderbook : Orderbook) (ixs : List Instruction)
    (hpipe : openPositionWithTPSLVersioned direction marketIndex balance settings orderbook
      = some ixs) :
    ixs.map Instruction.triggerBit = [none, none, some 0] ∧
    ixs.map Instruction.isTriggerOrder = [false, false, true] ∧
    ixs.map Instruction.reduceOnlyFlag = [false, true, true] ∧
    ixs.map Instruction.sideOf =
      [if direction = "long" then Side.BID else Side.ASK,
       if direction = "long" then Side.ASK else Side.BID,
       if direction = "long" then Side.ASK else Side.BID] := by
  simp only [openPositionWithTPSLVersioned] at hpipe
  cases h : calculatePricesAndSize (if direction = "long" then Side.BID else Side.ASK)
      marketIndex balance settings orderbook with
  | none => rw [h] at hpipe; simp at hpipe
  | some r =>
      rw [h] at hpipe
      simp only [Option.some.injEq] at hpipe
      subst hpipe
      simp [Instruction.triggerBit, Instruction.isTriggerOrder, Instruction.reduceOnlyFlag,
            Instruction.sideOf, createMainOrderInstruction,
            createTPLimitOrderInstruction, createSLOrderInstruction]

/-! Concrete fixtures used by witnesses. -/

/-- A run environment in which every submission is rejected (the
rejection reports the attempt number). -/
def envFW : TxEnv ℕ ℕ ℕ := ⟨fun i => i, fun i _ => Except.error i⟩

/-- A run environment in which attempt 2 succeeds with transaction id 7
and every other attempt is rejected. -/
def envSW : TxEnv ℕ ℕ ℕ := ⟨fun i => i, fun i _ => if i = 2 then Except.ok 7 else Except.error i⟩

/-- The instruction bundle the pipeline emits for a long trade with
balance 0, zero percentages and a book with best ask and best bid 1. -/
def ixsW : List Instruction :=
  [.placePerpOrder 0 1000050 0 .BID .LIMIT false,
   .placePerpOrder 0 1000050 0 .ASK .LIMIT true,
   .placeTriggerOrder 0 1000050 0 .ASK 1000050 .LESSTHANOREQUAL 0 .LIMIT 0 true]

/-- The pipeline on the concrete long trade evaluates to `ixsW`. -/
theorem hpipe_long :
    openPositionWithTPSLVersioned "long" 0 0 ⟨0, 0, 0⟩ ⟨[1], [1]⟩ = some ixsW := by
  norm_num [openPositionWithTPSLVersioned, calculatePricesAndSize, calculateTPSLPrices,
    toFixed1, convertDecimalToNativeLotSize, convertDecimalToNativeInteger,
    createMainOrderInstruction, createTPLimitOrderInstruction, createSLOrderInstruction, ixsW]

/-- The instruction bundle the pipeline emits for direction "Long"
(treated as short) with balance 0, zero percentages and a book with best
ask and best bid 1. -/
def ixsW2 : List Instruction :=
  [.placePerpOrder 0 999950 0 .ASK .LIMIT false,
   .placePerpOrder 0 999950 0 .BID .LIMIT true,
   .placeTriggerOrder 0 999950 0 .BID 999950 .GREATERTHANOREQUAL 0 .LIMIT 0 true]

/-- The pipeline on the concrete "Long" trade evaluates to `ixsW2`. -/
theorem hpipe_Long :
    openPositionWithTPSLVersioned "Long" 0 0 ⟨0, 0, 0⟩ ⟨[1], [1]⟩ = some ixsW2 := by
  norm_num [openPositionWithTPSLVersioned, calculatePricesAndSize, calculateTPSLPrices,
    toFixed1, convertDecimalToNativeLotSize, convertDecimalToNativeInteger,
    createMainOrderInstruction, createTPLimitOrderInstruction, createSLOrderInstruction, ixsW2,
    show ("Long" : String) ≠ "long" from by decide, side_ask_ne_bid]

/-! Claims. -/

/-- Claim C1: for direction long or short, positive entry price and
percentages in (0,1), `calculateTPSLPrices` orders its outputs relative
to direction: long gives take-profit above entry above stop-loss, short
gives take-profit below entry below stop-loss. -/
theorem c1_tpsl_price_ordering (direction : String) (price : ℚ) (settings : RiskSettings)
    (hp : 0 < price)
    (htp0 : 0 < settings.takeProfitPercentage) (htp1 : settings.takeProfitPercentage < 1)
    (hsl0 : 0 < settings.stopLossPercentage) (hsl1 : settings.stopLossPercentage < 1) :
    (direction = "long" →
      (calculateTPSLPrices direction price settings).takeProfitPrice > price ∧
      (calculateTPSLPrices direction price settings).stopLossPrice < price) ∧
    (direction = "short" →
      (calculateTPSLPrices direction price settings).takeProfitPrice < price ∧
      price < (calculateTPSLPrices direction price settings).stopLossPrice) := by
  have h1 : 0 < price * settings.takeProfitPercentage := mul_pos hp htp0
  have h2 : 0 < price * settings.stopLossPercentage := mul_pos hp hsl0
  constructor
  · intro hd; simp [calculateTPSLPrices, hd]; constructor <;> linarith
  · intro hd; subst hd; simp [calculateTPSLPrices]; constructor <;> linarith

/-- Witness for C1 at direction long and short, price 100 and the
default settings. -/
theorem c1_witness :
    ((calculateTPSLPrices "long" 100 ⟨8, 9/5000, 11/500⟩).takeProfitPrice > 100 ∧
     (calculateTPSLPrices "long" 100 ⟨8, 9/5000, 11/500⟩).stopLossPrice < 100) ∧
    ((calculateTPSLPrices "short" 100 ⟨8, 9/5000, 11/500⟩).takeProfitPrice < 100 ∧
     100 < (calculateTPSLPrices "short" 100 ⟨8, 9/5000, 11/500⟩).stopLossPrice) :=
  ⟨(c1_tpsl_price_ordering "long" 100 ⟨8, 9/5000, 11/500⟩ (by norm_num) (by norm_num)
      (by norm_num) (by norm_num) (by norm_num)).1 rfl,
   (c1_tpsl_price_ordering "short" 100 ⟨8, 9/5000, 11/500⟩ (by norm_num) (by norm_num)
      (by norm_num) (by norm_num) (by norm_num)).2 rfl⟩

/-- Claim C2: for every direction, entry price and settings, the
take-profit trigger is the midpoint of entry and take-profit price
(equivalently entry plus half the signed distance), and the stop-loss
trigger sits at 90 percent of the signed distance from entry to
stop-loss price. -/
theorem c2_trigger_formulas (direction : String) (price : ℚ) (settings : RiskSettings) :
    (calculateTPSLPrices direction price settings).takeProfitTrigger =
      price + ((calculateTPSLPrices direction price settings).takeProfitPrice - price) / 2 ∧
    (calculateTPSLPrices direction price settings).takeProfitTrigger =
      (price + (calculateTPSLPrices direction price settings).takeProfitPrice) / 2 ∧
    (calculateTPSLPrices direction price settings).stopLossTrigger =
      price + ((calculateTPSLPrices direction price settings).stopLossPrice - price) * (9/10) := by
  refine ⟨?_, ?_, ?_⟩ <;> by_cases hd : direction = "long" <;>
    simp [calculateTPSLPrices, hd] <;> ring

/-- Claim C3: `calculatePricesAndSize` takes the best ask as current
price for BID and the best bid for ASK, and shifts it by the 0.00005
slippage away from the trader; on bestAsk 101, bestBid 99, side BID it
yields current price 101 and adjusted price 101.00505. -/
theorem c3_current_and_adjusted_price (marketIndex : ℕ) (balance : ℚ)
    (settings : RiskSettings) (a b : ℚ) (ar br : List ℚ) :
    ((calculatePricesAndSize Side.BID marketIndex balance settings ⟨a :: ar, b :: br⟩).map
        (fun r => r.currentPrice) = some a ∧
     (calculatePricesAndSize Side.BID marketIndex balance settings ⟨a :: ar, b :: br⟩).map
        (fun r => r.adjustedPrice) = some (a * (1 + 5/100000)) ∧
     (calculatePricesAndSize Side.ASK marketIndex balance settings ⟨a :: ar, b :: br⟩).map
        (fun r => r.currentPrice) = some b ∧
     (calculatePricesAndSize Side.ASK marketIndex balance settings ⟨a :: ar, b :: br⟩).map
        (fun r => r.adjustedPrice) = some (b * (1 - 5/100000))) ∧
    ((calculatePricesAndSize Side.BID marketIndex balance settings ⟨[101], [99]⟩).map
        (fun r => r.currentPrice) = some 101 ∧
     (calculatePricesAndSize Side.BID marketIndex balance settings ⟨[101], [99]⟩).map
        (fun r => r.adjustedPrice) = some (101.00505 : ℚ)) := by
  refine ⟨⟨?_, ?_, ?_, ?_⟩, ?_, ?_⟩ <;>
    norm_num [calculatePricesAndSize, toFixed1, convertDecimalToNativeLotSize, side_ask_ne_bid]

/-- Counterexample to C4 as stated: on a concrete long trade the
pipeline emits exactly one trigger instruction, the stop-loss one, and
its trigger order slot is 0, not the claimed 1. -/
theorem c4_slot_counterexample :
    (openPositionWithTPSLVersioned "long" 0 1000 ⟨8, 9/5000, 11/500⟩ ⟨[101], [99]⟩).map
        (fun l => l.map Instruction.triggerBit) = some [none, none, some 0] ∧
    some (0 : ℕ) ≠ some 1 := by
  refine ⟨?_, by norm_num⟩
  norm_num [openPositionWithTPSLVersioned, calculatePricesAndSize, calculateTPSLPrices,
    toFixed1, convertDecimalToNativeLotSize, convertDecimalToNativeInteger,
    createMainOrderInstruction, createTPLimitOrderInstruction, createSLOrderInstruction,
    Instruction.triggerBit]

/-- Claim C4 amended: the builder defaults assign slot 0 to take-profit
trigger instructions and slot 1 to stop-loss trigger instructions, but
the pipeline overrides the stop-loss slot to 0 at the call site, so the
bundle it emits carries its only trigger instruction, the stop-loss one,
in slot 0. -/
theorem c4_trigger_slots_amended (direction : String) (marketIndex : ℕ)
    (tp tpt sl slt : ℚ) (n : ℤ) (balance : ℚ) (settings : RiskSettings)
    (orderbook : Orderbook) (ixs : List Instruction)
    (hpipe : openPositionWithTPSLVersioned direction marketIndex balance settings orderbook
      = some ixs) :
    (createTPOrderInstructionDefault direction marketIndex tp tpt n).triggerBit = some 0 ∧
    (createSLOrderInstructionDefault direction marketIndex sl slt n).triggerBit = some 1 ∧
    ixs.map Instruction.triggerBit = [none, none, some 0] :=
  ⟨rfl, rfl,
   (openPosition_instruction_shape direction marketIndex balance settings orderbook
      ixs hpipe).1⟩

/-- Witness for C4 amended on the concrete long trade. -/
theorem c4_witness :
    (createTPOrderInstructionDefault "long" 0 1 1 1).triggerBit = some 0 ∧
    (createSLOrderInstructionDefault "long" 0 1 1 1).triggerBit = some 1 ∧
    ixsW.map Instruction.triggerBit = [none, none, some 0] :=
  c4_trigger_slots_amended "long" 0 1 1 1 1 1 0 ⟨0, 0, 0⟩ ⟨[1], [1]⟩ ixsW hpipe_long

/-- Counterexample to C5 as stated: with balance 80.06, leverage 1 and
current price 1, the value fed to the lot conversion is 80.1 (JavaScript
toFixed rounds), while truncation to one decimal place gives 80.0. -/
theorem c5_truncation_counterexample :
    (calculatePricesAndSize Side.BID 0 (4003/50) ⟨1, 9/5000, 11/500⟩ ⟨[1], [1]⟩).map
        (fun r => r.positionSizeFixed) = some (801/10) ∧
    specTruncate1 (4003/50) = 80 ∧
    ((801 : ℚ)/10) ≠ 80 := by
  refine ⟨?_, ?_, by norm_num⟩ <;>
    norm_num [calculatePricesAndSize, toFixed1, specTruncate1, convertDecimalToNativeLotSize]

/-- Claim C5 amended: positionSize is balance times leverage divided by
the current price, and it is rounded (JavaScript toFixed(1), half up),
not truncated, to one decimal place before the native lot conversion; on
balance 1000, leverage 8, current price 100 the position size is 80.0. -/
theorem c5_position_size_amended (marketIndex : ℕ) (balance : ℚ) (settings : RiskSettings)
    (a b : ℚ) (ar br : List ℚ) (ha : 0 < a) (hb : 0 < b) :
    (calculatePricesAndSize Side.BID marketIndex balance settings ⟨a :: ar, b :: br⟩).map
        (fun r => r.positionSize) = some (balance * settings.leverageMultiplier / a) ∧
    (calculatePricesAndSize Side.BID marketIndex balance settings ⟨a :: ar, b :: br⟩).map
        (fun r => r.positionSizeFixed) =
          some (toFixed1 (balance * settings.leverageMultiplier / a)) ∧
    (calculatePricesAndSize Side.ASK marketIndex balance settings ⟨a :: ar, b :: br⟩).map
        (fun r => r.positionSize) = some (balance * settings.leverageMultiplier / b) ∧
    (calculatePricesAndSize Side.ASK marketIndex balance settings ⟨a :: ar, b :: br⟩).map
        (fun r => r.positionSizeFixed) =
          some (toFixed1 (balance * settings.leverageMultiplier / b)) ∧
    (calculatePricesAndSize Side.BID marketIndex 1000 ⟨8, 9/5000, 11/500⟩ ⟨[100], [99]⟩).map
        (fun r => r.positionSize) = some 80 ∧
    (calculatePricesAndSize Side.BID marketIndex 1000 ⟨8, 9/5000, 11/500⟩ ⟨[100], [99]⟩).map
        (fun r => r.positionSizeFixed) = some 80 := by
  refine ⟨?_, ?_, ?_, ?_, ?_, ?_⟩ <;>
    norm_num [calculatePricesAndSize, toFixed1, convertDecimalToNativeLotSize, side_ask_ne_bid]

/-- Witness for C5 amended at balance 1000, leverage 8, best ask 100. -/
theorem c5_witness :
    (calculatePricesAndSize Side.BID 0 1000 ⟨8, 9/5000, 11/500⟩ ⟨[100], [99]⟩).map
        (fun r => r.positionSize) = some 80 ∧
    (calculatePricesAndSize Side.BID 0 1000 ⟨8, 9/5000, 11/500⟩ ⟨[100], [99]⟩).map
        (fun r => r.positionSizeFixed) = some 80 := by
  have h := c5_position_size_amended 0 1000 ⟨8, 9/5000, 11/500⟩ 100 99 [] []
    (by norm_num) (by norm_num)
  exact ⟨h.2.2.2.2.1, h.2.2.2.2.2⟩

/-- Counterexample to C6 as stated: a stored leverage field that is
present and parses to the number 0 is replaced by the default 8 instead
of being returned as its parsed value (JavaScript or-with-default treats
0 as falsy). -/
theorem c6_parsed_zero_counterexample :
    fetchSettings (Except.ok ⟨some 0, some (9/5000), some (11/500)⟩) = ⟨8, 9/5000, 11/500⟩ ∧
    (8 : ℚ) ≠ 0 :=
  ⟨by norm_num [fetchSettings, jsParseFloatOr], by norm_num⟩

/-- Claim C6 amended: `fetchSettings` never raises; a store failure
yields exactly the defaults 8, 0.0018, 0.022; a missing or unparsable
field falls back to its default; a field that parses to a nonzero number
is returned as parsed; a field that parses to 0 also falls back to its
default. -/
theorem c6_fetch_settings_amended (h : TradingSettings) (v : ℚ) (hv : v ≠ 0) :
    fetchSettings (Except.error ()) = ⟨8, 9/5000, 11/500⟩ ∧
    (h.leverageMultiplier = none → (fetchSettings (Except.ok h)).leverageMultiplier = 8) ∧
    (h.takeProfitPercentage = none →
      (fetchSettings (Except.ok h)).takeProfitPercentage = 9/5000) ∧
    (h.stopLossPercentage = none → (fetchSettings (Except.ok h)).stopLossPercentage = 11/500) ∧
    (h.leverageMultiplier = some v → (fetchSettings (Except.ok h)).leverageMultiplier = v) ∧
    (h.takeProfitPercentage = some v → (fetchSettings (Except.ok h)).takeProfitPercentage = v) ∧
    (h.stopLossPercentage = some v → (fetchSettings (Except.ok h)).stopLossPercentage = v) ∧
    (h.leverageMultiplier = some 0 → (fetchSettings (Except.ok h)).leverageMultiplier = 8) ∧
    (h.takeProfitPercentage = some 0 →
      (fetchSettings (Except.ok h)).takeProfitPercentage = 9/5000) ∧
    (h.stopLossPercentage = some 0 →
      (fetchSettings (Except.ok h)).stopLossPercentage = 11/500) := by
  refine ⟨rfl, ?_, ?_, ?_, ?_, ?_, ?_, ?_, ?_, ?_⟩ <;>
    (intro he; simp [fetchSettings, jsParseFloatOr, he, hv])

/-- Witness for C6 amended on a store with leverage 5, a missing
take-profit field and a stop-loss field parsing to 0. -/
theorem c6_witness :
    fetchSettings (Except.error ()) = ⟨8, 9/5000, 11/500⟩ ∧
    ((⟨some 5, none, some 0⟩ : TradingSettings).leverageMultiplier = none →
      (fetchSettings (Except.ok ⟨some 5, none, some 0⟩)).leverageMultiplier = 8) ∧
    ((⟨some 5, none, some 0⟩ : TradingSettings).takeProfitPercentage = none →
      (fetchSettings (Except.ok ⟨some 5, none, some 0⟩)).takeProfitPercentage = 9/5000) ∧
    ((⟨some 5, none, some 0⟩ : TradingSettings).stopLossPercentage = none →
      (fetchSettings (Except.ok ⟨some 5, none, some 0⟩)).stopLossPercentage = 11/500) ∧
    ((⟨some 5, none, some 0⟩ : TradingSettings).leverageMultiplier = some 5 →
      (fetchSettings (Except.ok ⟨some 5, none, some 0⟩)).leverageMultiplier = 5) ∧
    ((⟨some 5, none, some 0⟩ : TradingSettings).takeProfitPercentage = some 5 →
      (fetchSettings (Except.ok ⟨some 5, none, some 0⟩)).takeProfitPercentage = 5) ∧
    ((⟨some 5, none, some 0⟩ : TradingSettings).stopLossPercentage = some 5 →
      (fetchSettings (Except.ok ⟨some 5, none, some 0⟩)).stopLossPercentage = 5) ∧
    ((⟨some 5, none, some 0⟩ : TradingSettings).leverageMultiplier = some 0 →
      (fetchSettings (Except.ok ⟨some 5, none, some 0⟩)).leverageMultiplier = 8) ∧
    ((⟨some 5, none, some 0⟩ : TradingSettings).takeProfitPercentage = some 0 →
      (fetchSettings (Except.ok ⟨some 5, none, some 0⟩)).takeProfitPercentage = 9/5000) ∧
    ((⟨some 5, none, some 0⟩ : TradingSettings).stopLossPercentage = some 0 →
      (fetchSettings (Except.ok ⟨some 5, none, some 0⟩)).stopLossPercentage = 11/500) :=
  c6_fetch_settings_amended ⟨some 5, none, some 0⟩ 5 (by norm_num)

/-- Claim C7: on persistent failure the loop makes exactly maxRetries
attempts and propagates the final error, having slept between attempts
only; when an attempt succeeds it returns that transaction id at once,
with no further attempts and no delay after the success. -/
theorem c7_retry_semantics {E B T : Type} (envF envS : TxEnv E B T)
    (m d k : ℕ) (f g : ℕ → E) (t : T)
    (hm : 1 ≤ m) (hk : 1 ≤ k) (hkm : k ≤ m)
    (hF : ∀ i b, envF.submit i b = Except.error (f i))
    (hS1 : ∀ i b, i < k → envS.submit i b = Except.error (g i))
    (hS2 : ∀ b, envS.submit k b = Except.ok t) :
    ((processTransactionWithRetry envF m d).result = some (Except.error (f m)) ∧
     (processTransactionWithRetry envF m d).submissions.length = m ∧
     (processTransactionWithRetry envF m d).totalDelay = (m - 1) * d) ∧
    ((processTransactionWithRetry envS m d).result = some (Except.ok t) ∧
     (processTransactionWithRetry envS m d).submissions.length = k ∧
     (processTransactionWithRetry envS m d).totalDelay = (k - 1) * d) := by
  obtain ⟨mm, rfl⟩ : ∃ mm, m = mm + 1 := ⟨m - 1, by omega⟩
  obtain ⟨kk, rfl⟩ : ∃ kk, k = kk + 1 := ⟨k - 1, by omega⟩
  constructor
  · rw [processTransactionWithRetry, retryLoop_persistent_failure envF d f hF mm 1]
    refine ⟨?_, ?_, ?_⟩ <;> simp [Nat.add_comm]
  · have hfail : ∀ i b, i < 1 + kk → envS.submit i b = Except.error (g i) := by
      intro i b hi
      exact hS1 i b (by omega)
    have hok : ∀ b, envS.submit (1 + kk) b = Except.ok t := by
      intro b
      rw [show 1 + kk = kk + 1 from by omega]
      exact hS2 b
    rw [processTransactionWithRetry,
        retryLoop_success envS d g t kk 1 (mm + 1) (by omega) hfail hok]
    refine ⟨?_, ?_, ?_⟩ <;> simp

/-- Witness for C7: with maxRetries 3 and delay 100, an always-failing
environment makes 3 submissions, sleeps 200 in total and ends in the
error of attempt 3, while an environment succeeding at attempt 2 returns
transaction id 7 after 2 submissions and a single 100 sleep. -/
theorem c7_witness :
    ((processTransactionWithRetry envFW 3 100).result = some (Except.error 3) ∧
     (processTransactionWithRetry envFW 3 100).submissions.length = 3 ∧
     (processTransactionWithRetry envFW 3 100).totalDelay = (3 - 1) * 100) ∧
    ((processTransactionWithRetry envSW 3 100).result = some (Except.ok 7) ∧
     (processTransactionWithRetry envSW 3 100).submissions.length = 2 ∧
     (processTransactionWithRetry envSW 3 100).totalDelay = (2 - 1) * 100) :=
  c7_retry_semantics envFW envSW 3 100 2 (fun i => i) (fun i => i) 7
    (by omega) (by omega) (by omega)
    (fun i b => rfl)
    (fun i b hi => by simp [envSW, show i ≠ 2 from by omega])
    (fun b => rfl)

/-- Claim C8: every submission of the retry loop is stamped with the
blockhash fetched during that same attempt, so when each attempt fetches
a fresh (distinct) blockhash, no blockhash is ever reused across
attempts. -/
theorem c8_fresh_blockhash_per_attempt {E B T : Type} (env : TxEnv E B T) (m d : ℕ)
    (hinj : Function.Injective env.fetchBlockhash) :
    (processTransactionWithRetry env m d).submissions =
      (List.range' 1 (processTransactionWithRetry env m d).submissions.length).map
        env.fetchBlockhash ∧
    (processTransactionWithRetry env m d).submissions.Nodup := by
  refine ⟨retryLoop_submissions env d m 1, ?_⟩
  rw [show (processTransactionWithRetry env m d).submissions =
      (List.range' 1 (processTransactionWithRetry env m d).submissions.length).map
        env.fetchBlockhash from retryLoop_submissions env d m 1]
  exact List.Nodup.map hinj (List.nodup_range' _ _)

/-- Witness for C8 on the always-failing environment with identity
blockhash fetches. -/
theorem c8_witness :
    (processTransactionWithRetry envFW 3 100).submissions =
      (List.range' 1 (processTransactionWithRetry envFW 3 100).submissions.length).map
        envFW.fetchBlockhash ∧
    (processTransactionWithRetry envFW 3 100).submissions.Nodup :=
  c8_fresh_blockhash_per_attempt envFW 3 100 (fun x y hxy => hxy)

/-- Claim C9: the take-profit leg is a plain reduce-only limit order at
the take-profit price on the side opposite the trade direction; the
trigger argument is unused, so any two trigger values give the identical
instruction; and in every bundle the pipeline emits, the take-profit leg
is the non-trigger reduce-only second instruction. -/
theorem c9_tp_limit_leg (direction : String) (marketIndex : ℕ) (tp t1 t2 : ℚ) (n : ℤ)
    (balance : ℚ) (settings : RiskSettings) (orderbook : Orderbook)
    (ixs : List Instruction)
    (hpipe : openPositionWithTPSLVersioned direction marketIndex balance settings orderbook
      = some ixs) :
    createTPLimitOrderInstruction direction marketIndex tp t1 n =
      createTPLimitOrderInstruction direction marketIndex tp t2 n ∧
    createTPLimitOrderInstruction direction marketIndex tp t1 n =
      Instruction.placePerpOrder marketIndex (convertDecimalToNativeInteger tp) n
        (if direction = "long" then Side.ASK else Side.BID) OrderType.LIMIT true ∧
    (if direction = "long" then Side.ASK else Side.BID) =
      Side.opposite (if direction = "long" then Side.BID else Side.ASK) ∧
    ixs.map Instruction.isTriggerOrder = [false, false, true] ∧
    ixs.map Instruction.reduceOnlyFlag = [false, true, true] := by
  have hshape := openPosition_instruction_shape direction marketIndex balance settings
    orderbook ixs hpipe
  refine ⟨rfl, rfl, ?_, hshape.2.1, hshape.2.2.1⟩
  by_cases hd : direction = "long" <;> simp [hd, Side.opposite]

/-- Witness for C9 on the concrete long trade, with trigger values 1 and
2. -/
theorem c9_witness :
    createTPLimitOrderInstruction "long" 0 7 1 5 =
      createTPLimitOrderInstruction "long" 0 7 2 5 ∧
    createTPLimitOrderInstruction "long" 0 7 1 5 =
      Instruction.placePerpOrder 0 (convertDecimalToNativeInteger 7) 5
        (if "long" = "long" then Side.ASK else Side.BID) OrderType.LIMIT true ∧
    (if "long" = "long" then Side.ASK else Side.BID) =
      Side.opposite (if "long" = "long" then Side.BID else Side.ASK) ∧
    ixsW.map Instruction.isTriggerOrder = [false, false, true] ∧
    ixsW.map Instruction.reduceOnlyFlag = [false, true, true] :=
  c9_tp_limit_leg "long" 0 7 1 2 5 0 ⟨0, 0, 0⟩ ⟨[1], [1]⟩ ixsW hpipe_long

/-- Claim C10: any direction other than the exact string "long" is
treated as a short everywhere: the TPSL prices, the pipeline output and
the two protective builders coincide with the "short" case, the main
order goes on the ASK side and both protective legs on the BID side; the
functions are total, so no direction string is rejected. -/
theorem c10_nonlong_is_short (direction : String) (hd : direction ≠ "long")
    (price : ℚ) (settings : RiskSettings) (marketIndex : ℕ) (balance : ℚ)
    (orderbook : Orderbook) (tp tpt sl slt : ℚ) (n : ℤ) (bit : ℕ)
    (ixs : List Instruction)
    (hpipe : openPositionWithTPSLVersioned direction marketIndex balance settings orderbook
      = some ixs) :
    calculateTPSLPrices direction price settings = calculateTPSLPrices "short" price settings ∧
    openPositionWithTPSLVersioned direction marketIndex balance settings orderbook =
      openPositionWithTPSLVersioned "short" marketIndex balance settings orderbook ∧
    createTPLimitOrderInstruction direction marketIndex tp tpt n =
      createTPLimitOrderInstruction "short" marketIndex tp tpt n ∧
    createSLOrderInstruction direction marketIndex sl slt n bit =
      createSLOrderInstruction "short" marketIndex sl slt n bit ∧
    ixs.map Instruction.sideOf = [Side.ASK, Side.BID, Side.BID] := by
  have hshape := (openPosition_instruction_shape direction marketIndex balance settings
    orderbook ixs hpipe).2.2.2
  refine ⟨?_, ?_, ?_, ?_, ?_⟩
  · simp [calculateTPSLPrices, hd]
  · simp [openPositionWithTPSLVersioned, calculateTPSLPrices, createMainOrderInstruction,
      createTPLimitOrderInstruction, createSLOrderInstruction, hd]
  · simp [createTPLimitOrderInstruction, hd]
  · simp [createSLOrderInstruction, hd]
  · rw [hshape]; simp [hd]

/-- Witness for C10 at the direction string "Long". -/
theorem c10_witness :
    calculateTPSLPrices "Long" 100 ⟨0, 0, 0⟩ = calculateTPSLPrices "short" 100 ⟨0, 0, 0⟩ ∧
    openPositionWithTPSLVersioned "Long" 0 0 ⟨0, 0, 0⟩ ⟨[1], [1]⟩ =
      openPositionWithTPSLVersioned "short" 0 0 ⟨0, 0, 0⟩ ⟨[1], [1]⟩ ∧
    createTPLimitOrderInstruction "Long" 0 1 1 1 =
      createTPLimitOrderInstruction "short" 0 1 1 1 ∧
    createSLOrderInstruction "Long" 0 1 1 1 0 =
      createSLOrderInstruction "short" 0 1 1 1 0 ∧
    ixsW2.map Instruction.sideOf = [Side.ASK, Side.BID, Side.BID] :=
  c10_nonlong_is_short "Long" (by decide) 100 ⟨0, 0, 0⟩ 0 0 ⟨[1], [1]⟩ 1 1 1 1 1 0
    ixsW2 hpipe_Long

end ZetaApi
